import Mathlib

/-!
Verification development for the CaloriesTracker meal-command processing
pipeline.  The definitions below are a shallow embedding of the TypeScript
source: `ProcessMealService` (orchestrator, product resolver, entry writer),
the mock `LLMClient`, and `OpenRouterService` (structured completion client).
External effects (the LLM, the database driver) are modelled by explicit
oracle functions carried in a `World` record, and the database by an explicit
`DbState` threaded through the pipeline.  TypeScript numbers are modelled as
rationals; the embedded code paths perform no arithmetic on them beyond
comparison and copying, so this abstraction is exact for the properties
considered here.
-/

set_option autoImplicit false

namespace CaloriesTracker

/-- Nutrition basis enum: the database enum with values 100g, 100ml, unit
(`nutrition_basis_enum` in the schema, `"100g" | "100ml" | "unit"` in
`src/types.ts`). -/
inductive NutritionBasis where
  | per100g
  | per100ml
  | perUnit
deriving DecidableEq, Repr

/-- `NutritionData` as returned by the LLM clients: a basis plus the four
per-basis nutrition numbers. -/
structure NutritionData where
  nutritionBasis : NutritionBasis
  calories : Rat
  protein : Rat
  fat : Rat
  carbs : Rat
deriving DecidableEq, Repr

/-- A row of the `products` table (`ProductEntity` in `src/types.ts`). -/
structure ProductEntity where
  id : Nat
  name : String
  nutrition_basis : NutritionBasis
  calories : Rat
  protein : Rat
  fat : Rat
  carbs : Rat
deriving DecidableEq, Repr

/-- A parsed meal item produced by the parse stage (`ParsedMealItem`). -/
structure ParsedMealItem where
  name : String
  quantity : Rat
deriving DecidableEq, Repr

/-- `NutritionDto`: the nutrition object embedded in an `EntryDto`; in the
source it is a pick of the calories, protein, fat and carbs columns of a
product row. -/
structure NutritionDto where
  calories : Rat
  protein : Rat
  fat : Rat
  carbs : Rat
deriving DecidableEq, Repr

/-- `EntryDto`: a successful entry in the process response. -/
structure EntryDto where
  entryId : Nat
  productId : Nat
  name : String
  quantity : Rat
  nutrition : NutritionDto
  consumedAt : String
deriving DecidableEq, Repr

/-- `ErrorDto`: one per-item (or whole-request) error in the process
response; `text` is the source text of the failed item. -/
structure ErrorDto where
  text : String
  message : String
deriving DecidableEq, Repr

/-- A row of the `entries` table. -/
structure EntryRow where
  id : Nat
  user_id : String
  product_id : Nat
  quantity : Rat
  consumed_at : String
deriving DecidableEq, Repr

/-- The database state threaded through the pipeline: the two tables touched
by `ProcessMealService` plus fresh-id counters standing in for generated
UUIDs. -/
structure DbState where
  products : List ProductEntity
  entries : List EntryRow
  nextProductId : Nat
  nextEntryId : Nat
deriving DecidableEq, Repr

/-- The aggregate result of `ProcessMealService.process`. -/
structure ProcessResult where
  successes : List EntryDto
  errors : List ErrorDto
deriving DecidableEq, Repr

/-- Outcomes of the external effects of one `process` run.  Each field is the
result the corresponding awaited call would produce:
`parseOutcome` for `parseText` (the LLM parse), `batchLookupError` for a
database failure of the batch select, `productFetchError` for a
non-PGRST116 failure of the single-row product fetch, `llmNutrition` for
`fetchNutritionData` keyed by the original item name, `productInsertError`
for a failure of the product insert keyed by normalized name (e.g. a unique
constraint violation raised by a concurrent create), `entryInsertError` for
a failure of the entry insert keyed by the item index, and `today` for the
date string computed from the clock. -/
structure World where
  parseOutcome : Except String (List ParsedMealItem)
  batchLookupError : Option String
  productFetchError : String → Option String
  llmNutrition : String → Except String NutritionData
  productInsertError : String → Option String
  entryInsertError : Nat → Option String
  today : String

/-- JavaScript `toLowerCase`, character by character (the names in play are
ASCII). -/
def jsToLower (s : String) : String :=
  String.mk (s.toList.map Char.toLower)

/-- JavaScript `trim`: strip leading and trailing whitespace. -/
def jsTrim (s : String) : String :=
  String.mk (((s.toList.dropWhile Char.isWhitespace).reverse.dropWhile
    Char.isWhitespace).reverse)

/-- Name normalization used throughout the service:
`name.toLowerCase().trim()`. -/
def normalizeName (s : String) : String :=
  jsTrim (jsToLower s)

/-- Rendering of a quantity in the template `${item.name} ${item.quantity}`.
JavaScript prints an integral number without a decimal point; all quantities
appearing in the claims are integral, and for those this rendering agrees
with JavaScript. -/
def jsNumToString (q : Rat) : String :=
  if q.den = 1 then toString q.num else toString q

/-- The per-item error text `${item.name} ${item.quantity}`. -/
def itemText (item : ParsedMealItem) : String :=
  item.name ++ " " ++ jsNumToString item.quantity

/-- JavaScript `Map.set`: overwrite the binding of `k` if present, else
append it. -/
def mapSet (m : List (String × ProductEntity)) (k : String) (v : ProductEntity) :
    List (String × ProductEntity) :=
  if m.any (fun kv => kv.1 == k) then
    m.map (fun kv => if kv.1 == k then (k, v) else kv)
  else
    m ++ [(k, v)]

/-- JavaScript `Map.get`: the value bound to `k`, if any. -/
def mapGet (m : List (String × ProductEntity)) (k : String) : Option ProductEntity :=
  (m.find? (fun kv => kv.1 == k)).map (fun kv => kv.2)

/-- `ProcessMealService.batchLookupProducts`: an empty name list yields an
empty map without touching the database; otherwise one `IN` select over the
products table, which either fails as a whole (`Database error: ...`) or
returns the matching rows, folded into a map keyed by each row name
lowercased and trimmed. -/
def batchLookupProducts (w : World) (st : DbState) (normalizedNames : List String) :
    Except String (List (String × ProductEntity)) :=
  if normalizedNames.isEmpty then
    .ok []
  else
    match w.batchLookupError with
    | some msg => .error ("Database error: " ++ msg)
    | none =>
      let data := st.products.filter (fun p => normalizedNames.contains p.name)
      .ok (data.foldl (fun m p => mapSet m (normalizeName p.name) p) [])

/-- `ProcessMealService.fetchOrCreateProduct`: fetch the product row by
normalized name; a found row is returned as is; a non-PGRST116 fetch failure
throws `Lookup failed`; on a miss the LLM nutrition call runs for the
original name and a new row is inserted, where an insert failure (including
a uniqueness violation from a concurrent create) throws
`Failed to create product`; a successful insert appends the new row and
returns it. -/
def fetchOrCreateProduct (w : World) (st : DbState)
    (normalizedName originalName : String) :
    Except String (ProductEntity × DbState) :=
  match w.productFetchError normalizedName with
  | some msg => .error ("Lookup failed: " ++ msg)
  | none =>
    match st.products.find? (fun p => p.name == normalizedName) with
    | some existing => .ok (existing, st)
    | none =>
      match w.llmNutrition originalName with
      | .error msg => .error msg
      | .ok nutrition =>
        match w.productInsertError normalizedName with
        | some msg => .error ("Failed to create product: " ++ msg)
        | none =>
          let newProduct : ProductEntity :=
            { id := st.nextProductId
              name := normalizedName
              nutrition_basis := nutrition.nutritionBasis
              calories := nutrition.calories
              protein := nutrition.protein
              fat := nutrition.fat
              carbs := nutrition.carbs }
          .ok (newProduct,
               { st with
                  products := st.products ++ [newProduct]
                  nextProductId := st.nextProductId + 1 })

/-- `ProcessMealService.insertEntry`: insert one row into `entries` dated
`today`; on failure throw `Failed to insert entry`; on success build the
`EntryDto`, whose nutrition object copies the calories, protein, fat and
carbs columns of the product row unchanged (no scaling by quantity happens
here). -/
def insertEntry (w : World) (st : DbState) (idx : Nat) (product : ProductEntity)
    (quantity : Rat) (userId : String) :
    Except String (EntryDto × DbState) :=
  match w.entryInsertError idx with
  | some msg => .error ("Failed to insert entry: " ++ msg)
  | none =>
    let entry : EntryRow :=
      { id := st.nextEntryId
        user_id := userId
        product_id := product.id
        quantity := quantity
        consumed_at := w.today }
    .ok ({ entryId := entry.id
           productId := entry.product_id
           name := product.name
           quantity := entry.quantity
           nutrition :=
             { calories := product.calories
               protein := product.protein
               fat := product.fat
               carbs := product.carbs }
           consumedAt := entry.consumed_at },
         { st with
            entries := st.entries ++ [entry]
            nextEntryId := st.nextEntryId + 1 })

/-- The first step of each loop iteration in `ProcessMealService.process`:
`let product = existingProducts.get(normalizedName); if (!product) product =
await this.fetchOrCreateProduct(normalizedName, item.name)`. -/
def resolveProduct (w : World) (item : ParsedMealItem)
    (existing : List (String × ProductEntity)) (st : DbState) :
    Except String (ProductEntity × DbState) :=
  match mapGet existing (normalizeName item.name) with
  | some p => .ok (p, st)
  | none => fetchOrCreateProduct w st (normalizeName item.name) item.name

/-- The remainder of a loop iteration once the product is in hand: the
quantity validation followed by the entry insert, an insert failure being
converted by the catch block of the loop. -/
def writeItem (w : World) (userId : String) (idx : Nat) (item : ParsedMealItem)
    (product : ProductEntity) (st1 : DbState) :
    Except ErrorDto EntryDto × DbState :=
  if item.quantity ≤ 0 then
    (.error { text := itemText item
              message := "Quantity must be greater than zero" }, st1)
  else
    match insertEntry w st1 idx product item.quantity userId with
    | .error msg =>
      (.error { text := itemText item
                message := "Failed to create entry: " ++ msg }, st1)
    | .ok (entry, st2) => (.ok entry, st2)

/-- The body of one iteration of the per-item loop in
`ProcessMealService.process` (the try block around steps fetch-or-create,
quantity validation, entry insert, with the catch converting any thrown
message into an `ErrorDto`).  Note the order taken from the source: the
product is obtained (and possibly created) before the quantity check. -/
def processOne (w : World) (userId : String) (idx : Nat) (item : ParsedMealItem)
    (existing : List (String × ProductEntity)) (st : DbState) :
    Except ErrorDto EntryDto × DbState :=
  match resolveProduct w item existing st with
  | .error msg =>
    (.error { text := itemText item
              message := "Failed to create entry: " ++ msg }, st)
  | .ok (product, st1) => writeItem w userId idx item product st1

/-- The per-item loop of `ProcessMealService.process`: fold `processOne` over
the enumerated parsed items, appending each outcome to the successes or the
errors accumulator and threading the database state. -/
def processItems (w : World) (userId : String) :
    List (Nat × ParsedMealItem) → List (String × ProductEntity) → DbState →
    List EntryDto → List ErrorDto → ProcessResult × DbState
  | [], _, st, successes, errors => ({ successes := successes, errors := errors }, st)
  | (idx, item) :: rest, existing, st, successes, errors =>
    match processOne w userId idx item existing st with
    | (.ok entry, st1) =>
      processItems w userId rest existing st1 (successes ++ [entry]) errors
    | (.error err, st1) =>
      processItems w userId rest existing st1 successes (errors ++ [err])

/-- `ProcessMealService.process`: parse the text (a parse failure or an empty
parse terminates the request with one whole-text error), batch-look-up the
products (a lookup failure likewise terminates with one whole-text error),
then run the per-item loop. -/
def process (w : World) (text : String) (userId : String) (st : DbState) :
    ProcessResult × DbState :=
  match w.parseOutcome with
  | .error msg =>
    ({ successes := []
       errors := [{ text := text
                    message := "Failed to parse meal description: " ++ msg }] }, st)
  | .ok parsedItems =>
    if parsedItems.isEmpty then
      ({ successes := []
         errors := [{ text := text
                      message := "No recognizable meal items found in the input" }] }, st)
    else
      match batchLookupProducts w st (parsedItems.map (fun i => normalizeName i.name)) with
      | .error msg =>
        ({ successes := []
           errors := [{ text := text
                        message := "Failed to lookup products: " ++ msg }] }, st)
      | .ok existing =>
        processItems w userId parsedItems.enum existing st [] []

namespace LLMClient

/-- The normalization inside the mock client:
`productName.toLowerCase().replace(/[^a-z]/g, "")`. -/
def mockNormalize (s : String) : String :=
  String.mk ((jsToLower s).toList.filter Char.isLower)

/-- The built-in mock nutrition database of the mock `LLMClient`, in source
order. -/
def mockNutritionDb : List (String × NutritionData) := [
  ("chicken", { nutritionBasis := .per100g, calories := 165, protein := 31, fat := 3.6, carbs := 0 }),
  ("rice", { nutritionBasis := .per100g, calories := 130, protein := 2.7, fat := 0.3, carbs := 28 }),
  ("bread", { nutritionBasis := .per100g, calories := 265, protein := 9, fat := 1.5, carbs := 49 }),
  ("egg", { nutritionBasis := .perUnit, calories := 78, protein := 6, fat := 6, carbs := 0.6 }),
  ("milk", { nutritionBasis := .per100ml, calories := 61, protein := 3.2, fat := 3.3, carbs := 4.8 }),
  ("apple", { nutritionBasis := .per100g, calories := 52, protein := 0.3, fat := 0.2, carbs := 14 }),
  ("banana", { nutritionBasis := .per100g, calories := 89, protein := 1.1, fat := 0.3, carbs := 23 }),
  ("broccoli", { nutritionBasis := .per100g, calories := 34, protein := 2.8, fat := 0.4, carbs := 7 }),
  ("salmon", { nutritionBasis := .per100g, calories := 208, protein := 22, fat := 13, carbs := 0 }),
  ("pasta", { nutritionBasis := .per100g, calories := 131, protein := 5, fat := 1.1, carbs := 25 })]

/-- The fixed default profile the mock client returns for products missing
from its database. -/
def defaultNutrition : NutritionData :=
  { nutritionBasis := .per100g, calories := 100, protein := 5, fat := 2, carbs := 15 }

/-- `LLMClient.fetchNutritionData` (mock): normalize the product name, look
it up in the mock database, and fall back to the fixed default profile when
the name is unknown.  The function is total: it never fails. -/
def fetchNutritionData (productName : String) : NutritionData :=
  match mockNutritionDb.find? (fun kv => kv.1 == mockNormalize productName) with
  | some kv => kv.2
  | none => defaultNutrition

/-- The nutrition oracle of the deployed mock configuration: every call to
the mock client returns successfully. -/
def mockLlmNutrition : String → Except String NutritionData :=
  fun name => .ok (fetchNutritionData name)

end LLMClient

/-! ## OpenRouterService: the structured completion client -/

/-- A JSON value, used to model the OpenRouter wire responses. -/
inductive JVal where
  | jnull
  | jbool (b : Bool)
  | jnum (q : Rat)
  | jstr (s : String)
  | jarr (elems : List JVal)
  | jobj (fields : List (String × JVal))

/-- Member access `v[k]` on a JSON value: defined only on objects. -/
def JVal.getField : JVal → String → Option JVal
  | .jobj fields, k => (fields.find? (fun kv => kv.1 == k)).map (fun kv => kv.2)
  | _, _ => none

/-- The error classes thrown by `OpenRouterService` (see `errors.ts`).
`apiOther` is the base `ApiError` class thrown by the default branch of
`_handleErrorResponse` for statuses other than 400, 401, 429, 500, 502, 503
and 504. -/
inductive ORError where
  | configuration (message : String)
  | apiAuth (message : String)
  | apiBadRequest (message : String)
  | apiRateLimit (message : String)
  | apiServer (message : String) (statusCode : Nat)
  | apiOther (message : String) (statusCode : Nat)
  | network (message : String)
  | responseParsing (message : String)
deriving DecidableEq, Repr

/-- Token usage metadata of a completion response. -/
structure Usage where
  prompt_tokens : Rat
  completion_tokens : Rat
  total_tokens : Rat

/-- The value returned by a successful `chatCompletion` call. -/
structure ChatCompletionResponse where
  content : JVal
  model : String
  usage : Usage

/-- The `OpenRouterService` instance data.  The source class declares no
constructor: its fields are the literal defaults below, and the API key is
read from the environment at module level (`astro:env/server`), possibly
absent. -/
structure OpenRouterService where
  apiKey : Option String
  defaultModel : String := "openai/gpt-4o-mini"
  defaultMaxTokens : Nat := 2048
  requestTimeout : Nat := 30000

/-- Construction of the service, `new OpenRouterService()`.  The source
class has no constructor body and performs no credential validation, so
construction always succeeds whether or not the API key is present. -/
def OpenRouterService.construct (envApiKey : Option String) :
    Except ORError OpenRouterService :=
  .ok { apiKey := envApiKey }

/-- `OpenRouterService._handleErrorResponse`: map a non-ok HTTP status to the
thrown error class.  Statuses 400, 401, 429 and the four listed 5xx statuses
get dedicated classes; every other status falls to the default branch, which
throws the base `ApiError` class. -/
def handleErrorResponse (status : Nat) (errorMessage : String) : ORError :=
  if status = 401 then
    .apiAuth ("API authentication failed: " ++ errorMessage)
  else if status = 400 then
    .apiBadRequest ("Bad request: " ++ errorMessage)
  else if status = 429 then
    .apiRateLimit ("Rate limited: " ++ errorMessage)
  else if status = 500 ∨ status = 502 ∨ status = 503 ∨ status = 504 then
    .apiServer ("OpenRouter API server error (" ++ toString status ++ "): " ++ errorMessage) status
  else
    .apiOther ("API request failed (" ++ toString status ++ "): " ++ errorMessage) status

/-- The metadata validation at the end of `_parseResponse`: the response must
carry a string `model` and a `usage` object with three numeric token counts.
(When `usage` is a JSON array the source reaches the token-count check and
reports the token message; here an array already fails the object match,
which changes only the message text, not the thrown class.) -/
def validateMetadata (response : JVal) (contentVal : JVal) :
    Except ORError ChatCompletionResponse :=
  match response.getField ("model"), response.getField ("usage") with
  | some (.jstr model), some (.jobj usageFields) =>
    match (JVal.jobj usageFields).getField ("prompt_tokens"),
          (JVal.jobj usageFields).getField ("completion_tokens"),
          (JVal.jobj usageFields).getField ("total_tokens") with
    | some (.jnum p), some (.jnum c), some (.jnum t) =>
      .ok { content := contentVal
            model := model
            usage := { prompt_tokens := p, completion_tokens := c, total_tokens := t } }
    | _, _, _ => .error (.responseParsing ("Invalid token usage information in response"))
  | _, _ => .error (.responseParsing ("Missing or invalid response metadata (model, usage)"))

/-- `OpenRouterService._parseResponse`: validate the wire shape
(`choices[0].message.content` a string), JSON-parse the content string
(`parseJson` stands for `JSON.parse`, `none` meaning it would throw),
validate against the output schema when one is given (`schemaCheck` stands
for `zodSchema.safeParse(...).success`), and validate the metadata.  Every
failure throws `ResponseParsingError`. -/
def parseResponse (parseJson : String → Option JVal)
    (schemaCheck : Option (JVal → Bool)) (response : JVal) :
    Except ORError ChatCompletionResponse :=
  match response.getField ("choices") with
  | some (.jarr (choice :: _)) =>
    match (choice.getField ("message")).bind (fun m => m.getField ("content")) with
    | some (.jstr content) =>
      match parseJson content with
      | none => .error (.responseParsing ("Failed to parse response content as JSON"))
      | some contentVal =>
        match schemaCheck with
        | some check =>
          if check contentVal then
            validateMetadata response contentVal
          else
            .error (.responseParsing ("Response content does not match the provided schema"))
        | none => validateMetadata response contentVal
    | _ => .error (.responseParsing ("Missing or invalid message content in API response"))
  | _ => .error (.responseParsing ("Invalid response structure from OpenRouter API"))

/-- The observable outcome of the one outbound `fetch` in `_sendRequest`. -/
inductive WireOutcome where
  /-- `fetch` threw a `TypeError` (transport failure). -/
  | netError (message : String)
  /-- the abort controller fired after the 30 s timeout. -/
  | timeout
  /-- a non-ok HTTP response; `errorMessage` is the upstream error message
  extracted from its body. -/
  | httpError (status : Nat) (errorMessage : String)
  /-- an ok response whose body was not valid JSON (`response.json()`
  threw). -/
  | okBadJson
  /-- an ok response with the given parsed JSON body. -/
  | ok (body : JVal)

/-- `OpenRouterService.chatCompletion`: reject an empty user message up
front as a bad request, then map the wire outcome through `_sendRequest`
(network and HTTP error handling) and `_parseResponse`.  A body that fails
`response.json()` propagates as the wrapped `NetworkError` of the catch
block in `_sendRequest`. -/
def chatCompletion (svc : OpenRouterService) (userMessage : String)
    (parseJson : String → Option JVal) (schemaCheck : Option (JVal → Bool))
    (wire : WireOutcome) : Except ORError ChatCompletionResponse :=
  if userMessage = "" then
    .error (.apiBadRequest ("userMessage must be a non-empty string"))
  else
    match wire with
    | .netError _ =>
      .error (.network ("Network error occurred while contacting OpenRouter API"))
    | .timeout =>
      .error (.network ("Request timeout after " ++ toString svc.requestTimeout ++ "ms"))
    | .httpError status errorMessage => .error (handleErrorResponse status errorMessage)
    | .okBadJson => .error (.network ("Unexpected error during API request"))
    | .ok body => parseResponse parseJson schemaCheck body

/-- The failure taxonomy exactly as the specification words it: every
completion failure is one of configuration, authentication, bad request,
rate limit, upstream server, network or parse failure.  This follows the
spec text, for comparison with the embedded code; the base `ApiError`
(`apiOther`) thrown by the default branch of the source is not among the
listed classes. -/
def claimedFailureTaxonomy : ORError → Bool
  | .configuration _ => true
  | .apiAuth _ => true
  | .apiBadRequest _ => true
  | .apiRateLimit _ => true
  | .apiServer _ _ => true
  | .apiOther _ _ => false
  | .network _ => true
  | .responseParsing _ => true

/-! ## Helper lemmas about the pipeline -/

theorem insertEntry_ok {w : World} {st : DbState} {idx : Nat} {product : ProductEntity}
    {q : Rat} {u : String} {d : EntryDto} {st2 : DbState}
    (h : insertEntry w st idx product q u = .ok (d, st2)) :
    d.quantity = q ∧
    d.nutrition = { calories := product.calories, protein := product.protein,
                    fat := product.fat, carbs := product.carbs } ∧
    st2.entries.length = st.entries.length + 1 ∧
    st2.products = st.products := by
  unfold insertEntry at h
  split at h
  · exact absurd h (by simp)
  · injection h with h1
    injection h1 with hd hst
    subst hd; subst hst
    exact ⟨rfl, rfl, by simp, rfl⟩

theorem fetchOrCreateProduct_ok_entries {w : World} {st : DbState} {n o : String}
    {p : ProductEntity} {st1 : DbState}
    (h : fetchOrCreateProduct w st n o = .ok (p, st1)) :
    st1.entries = st.entries := by
  unfold fetchOrCreateProduct at h
  split at h
  · exact absurd h (by simp)
  · split at h
    · injection h with h1; injection h1 with hp hst; subst hst; rfl
    · split at h
      · exact absurd h (by simp)
      · split at h
        · exact absurd h (by simp)
        · injection h with h1; injection h1 with hp hst; subst hst; rfl

theorem resolveProduct_ok_entries {w : World} {item : ParsedMealItem}
    {ex : List (String × ProductEntity)} {st : DbState}
    {p : ProductEntity} {st1 : DbState}
    (h : resolveProduct w item ex st = .ok (p, st1)) :
    st1.entries = st.entries := by
  unfold resolveProduct at h
  split at h
  · injection h with h1; injection h1 with hp hst; subst hst; rfl
  · exact fetchOrCreateProduct_ok_entries h

theorem writeItem_ok_facts {w : World} {u : String} {idx : Nat} {item : ParsedMealItem}
    {product : ProductEntity} {st1 : DbState} {entry : EntryDto} {st2 : DbState}
    (h : writeItem w u idx item product st1 = (.ok entry, st2)) :
    entry.quantity = item.quantity ∧ 0 < item.quantity ∧
    entry.nutrition = { calories := product.calories, protein := product.protein,
                        fat := product.fat, carbs := product.carbs } ∧
    st2.entries.length = st1.entries.length + 1 := by
  unfold writeItem at h
  split at h
  · exact absurd h (by simp)
  · rename_i hq
    split at h
    · exact absurd h (by simp)
    · rename_i d st3 hins
      injection h with h1 h2
      injection h1 with h1
      subst h1; subst h2
      have hfacts := insertEntry_ok hins
      exact ⟨hfacts.1, lt_of_not_le hq, hfacts.2.1, hfacts.2.2.1⟩

theorem writeItem_error_facts {w : World} {u : String} {idx : Nat} {item : ParsedMealItem}
    {product : ProductEntity} {st1 : DbState} {err : ErrorDto} {st2 : DbState}
    (h : writeItem w u idx item product st1 = (.error err, st2)) :
    err.text = itemText item ∧ 0 < err.message.length ∧ st2 = st1 := by
  unfold writeItem at h
  split at h
  · injection h with h1 h2
    injection h1 with h1
    subst h1; subst h2
    refine ⟨rfl, ?_, rfl⟩
    show 0 < ("Quantity must be greater than zero").length
    decide
  · split at h
    · rename_i msg hins
      injection h with h1 h2
      injection h1 with h1
      subst h1; subst h2
      refine ⟨rfl, ?_, rfl⟩
      show 0 < ("Failed to create entry: " ++ msg).length
      have hlen : ("Failed to create entry: " ++ msg).length =
          "Failed to create entry: ".length + msg.length := String.length_append _ _
      have hpre : 0 < ("Failed to create entry: ").length := by decide
      omega
    · exact absurd h (by simp)

theorem processOne_ok_facts {w : World} {u : String} {idx : Nat} {item : ParsedMealItem}
    {ex : List (String × ProductEntity)} {st : DbState} {entry : EntryDto} {st2 : DbState}
    (h : processOne w u idx item ex st = (.ok entry, st2)) :
    entry.quantity = item.quantity ∧ 0 < item.quantity ∧
    st2.entries.length = st.entries.length + 1 := by
  unfold processOne at h
  split at h
  · exact absurd h (by simp)
  · rename_i product st1 hres
    have hfacts := writeItem_ok_facts h
    have hentries := resolveProduct_ok_entries hres
    exact ⟨hfacts.1, hfacts.2.1, by rw [hfacts.2.2.2, hentries]⟩

theorem processOne_error_facts {w : World} {u : String} {idx : Nat} {item : ParsedMealItem}
    {ex : List (String × ProductEntity)} {st : DbState} {err : ErrorDto} {st2 : DbState}
    (h : processOne w u idx item ex st = (.error err, st2)) :
    err.text = itemText item ∧ 0 < err.message.length ∧
    st2.entries = st.entries := by
  unfold processOne at h
  split at h
  · rename_i msg hres
    injection h with h1 h2
    injection h1 with h1
    subst h1; subst h2
    refine ⟨rfl, ?_, rfl⟩
    show 0 < ("Failed to create entry: " ++ msg).length
    have hlen : ("Failed to create entry: " ++ msg).length =
        "Failed to create entry: ".length + msg.length := String.length_append _ _
    have hpre : 0 < ("Failed to create entry: ").length := by decide
    omega
  · rename_i product st1 hres
    have hfacts := writeItem_error_facts h
    have hentries := resolveProduct_ok_entries hres
    exact ⟨hfacts.1, hfacts.2.1, by rw [hfacts.2.2, hentries]⟩

theorem processItems_cons (w : World) (u : String) (idx : Nat) (item : ParsedMealItem)
    (rest : List (Nat × ParsedMealItem)) (ex : List (String × ProductEntity))
    (st : DbState) (s : List EntryDto) (e : List ErrorDto) :
    processItems w u ((idx, item) :: rest) ex st s e =
      match processOne w u idx item ex st with
      | (.ok entry, st1) => processItems w u rest ex st1 (s ++ [entry]) e
      | (.error err, st1) => processItems w u rest ex st1 s (e ++ [err]) := rfl

theorem processItems_length (w : World) (u : String) :
    ∀ (items : List (Nat × ParsedMealItem)) (ex : List (String × ProductEntity))
      (st : DbState) (s : List EntryDto) (e : List ErrorDto),
      (processItems w u items ex st s e).1.successes.length +
        (processItems w u items ex st s e).1.errors.length =
        s.length + e.length + items.length := by
  intro items
  induction items with
  | nil => intro ex st s e; simp [processItems]
  | cons hd tl ih =>
    intro ex st s e
    obtain ⟨idx, item⟩ := hd
    rw [processItems_cons]
    rcases hone : processOne w u idx item ex st with ⟨r, st1⟩
    rcases r with err | entry
    · show (processItems w u tl ex st1 s (e ++ [err])).1.successes.length +
        (processItems w u tl ex st1 s (e ++ [err])).1.errors.length =
        s.length + e.length + ((idx, item) :: tl).length
      have h := ih ex st1 s (e ++ [err])
      simp only [List.length_append, List.length_cons, List.length_nil] at h ⊢
      omega
    · show (processItems w u tl ex st1 (s ++ [entry]) e).1.successes.length +
        (processItems w u tl ex st1 (s ++ [entry]) e).1.errors.length =
        s.length + e.length + ((idx, item) :: tl).length
      have h := ih ex st1 (s ++ [entry]) e
      simp only [List.length_append, List.length_cons, List.length_nil] at h ⊢
      omega

theorem processItems_errors_mono (w : World) (u : String) :
    ∀ (items : List (Nat × ParsedMealItem)) (ex : List (String × ProductEntity))
      (st : DbState) (s : List EntryDto) (e : List ErrorDto) (err : ErrorDto),
      err ∈ e → err ∈ (processItems w u items ex st s e).1.errors := by
  intro items
  induction items with
  | nil => intro ex st s e err hmem; simpa [processItems] using hmem
  | cons hd tl ih =>
    intro ex st s e err hmem
    obtain ⟨idx, item⟩ := hd
    rw [processItems_cons]
    rcases hone : processOne w u idx item ex st with ⟨r, st1⟩
    rcases r with err1 | entry
    · exact ih ex st1 s (e ++ [err1]) err (List.mem_append_left _ hmem)
    · exact ih ex st1 (s ++ [entry]) e err hmem

theorem processItems_successes_pos (w : World) (u : String) :
    ∀ (items : List (Nat × ParsedMealItem)) (ex : List (String × ProductEntity))
      (st : DbState) (s : List EntryDto) (e : List ErrorDto),
      (∀ x ∈ s, 0 < x.quantity) →
      ∀ x ∈ (processItems w u items ex st s e).1.successes, 0 < x.quantity := by
  intro items
  induction items with
  | nil => intro ex st s e hs x hx; exact hs x hx
  | cons hd tl ih =>
    intro ex st s e hs x hx
    obtain ⟨idx, item⟩ := hd
    rw [processItems_cons] at hx
    rcases hone : processOne w u idx item ex st with ⟨r, st1⟩
    rw [hone] at hx
    rcases r with err1 | entry
    · exact ih ex st1 s (e ++ [err1]) hs x hx
    · refine ih ex st1 (s ++ [entry]) e ?_ x hx
      intro y hy
      rcases List.mem_append.mp hy with hy | hy
      · exact hs y hy
      · have hfacts := processOne_ok_facts hone
        have : y = entry := List.mem_singleton.mp hy
        subst this
        rw [hfacts.1]
        exact hfacts.2.1

theorem processItems_entries_length (w : World) (u : String) :
    ∀ (items : List (Nat × ParsedMealItem)) (ex : List (String × ProductEntity))
      (st : DbState) (s : List EntryDto) (e : List ErrorDto),
      (processItems w u items ex st s e).2.entries.length + s.length =
        st.entries.length + (processItems w u items ex st s e).1.successes.length := by
  intro items
  induction items with
  | nil => intro ex st s e; simp [processItems]
  | cons hd tl ih =>
    intro ex st s e
    obtain ⟨idx, item⟩ := hd
    rw [processItems_cons]
    rcases hone : processOne w u idx item ex st with ⟨r, st1⟩
    rcases r with err1 | entry
    · show (processItems w u tl ex st1 s (e ++ [err1])).2.entries.length + s.length =
        st.entries.length + (processItems w u tl ex st1 s (e ++ [err1])).1.successes.length
      have h := ih ex st1 s (e ++ [err1])
      have hst := (processOne_error_facts hone).2.2
      rw [hst] at h
      exact h
    · show (processItems w u tl ex st1 (s ++ [entry]) e).2.entries.length + s.length =
        st.entries.length + (processItems w u tl ex st1 (s ++ [entry]) e).1.successes.length
      have h := ih ex st1 (s ++ [entry]) e
      have hst := (processOne_ok_facts hone).2.2
      simp only [List.length_append, List.length_cons, List.length_nil] at h
      omega

theorem processItems_errors_msg_pos (w : World) (u : String) :
    ∀ (items : List (Nat × ParsedMealItem)) (ex : List (String × ProductEntity))
      (st : DbState) (s : List EntryDto) (e : List ErrorDto),
      (∀ x ∈ e, 0 < x.message.length) →
      ∀ x ∈ (processItems w u items ex st s e).1.errors, 0 < x.message.length := by
  intro items
  induction items with
  | nil => intro ex st s e he x hx; exact he x hx
  | cons hd tl ih =>
    intro ex st s e he x hx
    obtain ⟨idx, item⟩ := hd
    rw [processItems_cons] at hx
    rcases hone : processOne w u idx item ex st with ⟨r, st1⟩
    rw [hone] at hx
    rcases r with err1 | entry
    · refine ih ex st1 s (e ++ [err1]) ?_ x hx
      intro y hy
      rcases List.mem_append.mp hy with hy | hy
      · exact he y hy
      · have : y = err1 := List.mem_singleton.mp hy
        subst this
        exact (processOne_error_facts hone).2.1
    · exact ih ex st1 (s ++ [entry]) e he x hx

theorem processItems_error_of_nonpos (w : World) (u : String) :
    ∀ (items : List (Nat × ParsedMealItem)) (ex : List (String × ProductEntity))
      (st : DbState) (s : List EntryDto) (e : List ErrorDto) (idx : Nat)
      (item : ParsedMealItem),
      (idx, item) ∈ items → item.quantity ≤ 0 →
      ∃ err, err ∈ (processItems w u items ex st s e).1.errors ∧
        err.text = itemText item := by
  intro items
  induction items with
  | nil => intro ex st s e idx item hmem; exact absurd hmem (List.not_mem_nil _)
  | cons hd tl ih =>
    intro ex st s e idx item hmem hq
    obtain ⟨idx0, item0⟩ := hd
    rcases List.mem_cons.mp hmem with heq | htl
    · injection heq with h1 h2
      subst h1; subst h2
      rw [processItems_cons]
      rcases hone : processOne w u idx item ex st with ⟨r, st1⟩
      rcases r with err1 | entry
      · refine ⟨err1, ?_, (processOne_error_facts hone).1⟩
        exact processItems_errors_mono w u tl ex st1 s (e ++ [err1]) err1
          (List.mem_append_right _ (List.mem_singleton_self _))
      · have hfacts := processOne_ok_facts hone
        exact absurd hfacts.2.1 (not_lt.mpr hq)
    · rw [processItems_cons]
      rcases hone : processOne w u idx0 item0 ex st with ⟨r, st1⟩
      rcases r with err1 | entry
      · exact ih ex st1 s (e ++ [err1]) idx item htl hq
      · exact ih ex st1 (s ++ [entry]) e idx item htl hq

theorem process_parse_error {w : World} {text u : String} {st : DbState} {msg : String}
    (h : w.parseOutcome = .error msg) :
    process w text u st =
      ({ successes := []
         errors := [{ text := text
                      message := "Failed to parse meal description: " ++ msg }] }, st) := by
  simp [process, h]

theorem process_parse_empty {w : World} {text u : String} {st : DbState}
    (h : w.parseOutcome = .ok []) :
    process w text u st =
      ({ successes := []
         errors := [{ text := text
                      message := "No recognizable meal items found in the input" }] }, st) := by
  simp [process, h]

theorem process_lookup_error {w : World} {text u : String} {st : DbState}
    {items : List ParsedMealItem} {msg : String}
    (hp : w.parseOutcome = .ok items) (hne : items ≠ [])
    (hlk : w.batchLookupError = some msg) :
    process w text u st =
      ({ successes := []
         errors := [{ text := text
                      message := "Failed to lookup products: " ++
                        ("Database error: " ++ msg) }] }, st) := by
  obtain ⟨i0, rest, rfl⟩ := List.exists_cons_of_ne_nil hne
  simp [process, hp, batchLookupProducts, hlk]

theorem process_eq_processItems {w : World} {text u : String} {st : DbState}
    {items : List ParsedMealItem}
    (hp : w.parseOutcome = .ok items) (hne : items ≠ [])
    (hlk : w.batchLookupError = none) :
    process w text u st =
      processItems w u items.enum
        ((st.products.filter
            (fun p => (items.map (fun i => normalizeName i.name)).contains p.name)).foldl
          (fun m p => mapSet m (normalizeName p.name) p) [])
        st [] [] := by
  obtain ⟨i0, rest, rfl⟩ := List.exists_cons_of_ne_nil hne
  simp [process, hp, batchLookupProducts, hlk]

theorem fetchOrCreateProduct_insert_error {w : World} {st : DbState} {n o msg : String}
    {nd : NutritionData}
    (hf : w.productFetchError n = none)
    (hm : st.products.find? (fun p => p.name == n) = none)
    (hllm : w.llmNutrition o = .ok nd)
    (hins : w.productInsertError n = some msg) :
    fetchOrCreateProduct w st n o = .error ("Failed to create product: " ++ msg) := by
  simp [fetchOrCreateProduct, hf, hm, hllm, hins]

theorem fetchOrCreateProduct_miss_ok {w : World} {st : DbState} {n o : String}
    {nd : NutritionData}
    (hf : w.productFetchError n = none)
    (hm : st.products.find? (fun p => p.name == n) = none)
    (hllm : w.llmNutrition o = .ok nd)
    (hins : w.productInsertError n = none) :
    fetchOrCreateProduct w st n o =
      .ok (ProductEntity.mk st.nextProductId n nd.nutritionBasis nd.calories
             nd.protein nd.fat nd.carbs,
           { st with
              products := st.products ++ [ProductEntity.mk st.nextProductId n
                nd.nutritionBasis nd.calories nd.protein nd.fat nd.carbs]
              nextProductId := st.nextProductId + 1 }) := by
  simp [fetchOrCreateProduct, hf, hm, hllm, hins]

/-! ## Concrete fixtures used by the claim theorems -/

/-- The chicken product as cached in the products table (165 kcal per
100 g). -/
def chickenProduct : ProductEntity :=
  { id := 1, name := "chicken", nutrition_basis := .per100g,
    calories := 165, protein := 31, fat := 3.6, carbs := 0 }

/-- The rice product as cached in the products table. -/
def riceProduct : ProductEntity :=
  { id := 2, name := "rice", nutrition_basis := .per100g,
    calories := 130, protein := 2.7, fat := 0.3, carbs := 28 }

/-- An empty database. -/
def emptyDb : DbState :=
  { products := [], entries := [], nextProductId := 1, nextEntryId := 1 }

/-- A database caching the chicken and rice products. -/
def cachedDb : DbState :=
  { products := [chickenProduct, riceProduct], entries := [],
    nextProductId := 3, nextEntryId := 10 }

/-- A world in which every external call succeeds: the parse returns the
given items, the database never fails, and the nutrition oracle is the
deployed mock client. -/
def happyWorld (items : List ParsedMealItem) : World :=
  { parseOutcome := .ok items
    batchLookupError := none
    productFetchError := fun _ => none
    llmNutrition := LLMClient.mockLlmNutrition
    productInsertError := fun _ => none
    entryInsertError := fun _ => none
    today := "2025-10-27" }

/-- A world in which the batch product lookup fails as a whole. -/
def lookupFailWorld : World :=
  { parseOutcome := .ok [{ name := "chicken", quantity := 200 },
                         { name := "rice", quantity := 100 }]
    batchLookupError := some ("connection reset")
    productFetchError := fun _ => none
    llmNutrition := LLMClient.mockLlmNutrition
    productInsertError := fun _ => none
    entryInsertError := fun _ => none
    today := "2025-10-27" }

/-- A world in which the product insert hits the unique constraint because a
concurrent request created the row between our fetch and our insert. -/
def raceWorld : World :=
  { parseOutcome := .ok []
    batchLookupError := none
    productFetchError := fun _ => none
    llmNutrition := LLMClient.mockLlmNutrition
    productInsertError := fun _ => some ("duplicate key value violates unique constraint")
    entryInsertError := fun _ => none
    today := "2025-10-27" }

/-- A world in which the parser call itself fails. -/
def parseFailWorld : World :=
  { parseOutcome := .error ("LLM meal parsing failed")
    batchLookupError := none
    productFetchError := fun _ => none
    llmNutrition := LLMClient.mockLlmNutrition
    productInsertError := fun _ => none
    entryInsertError := fun _ => none
    today := "2025-10-27" }

/-! ## Claim C1 -/

/-- Claim C1, counterexample: the cache-hit arithmetic of the claim fails on
the code.  A cached product with basis PER_100_MASS and calories 165 per
100, logged with quantity 200, yields `EntryResult.nutrition.calories = 165`
(the per-basis value copied unscaled by `insertEntry`), not the claimed
330. -/
theorem c1_cacheHit_nutrition_not_scaled :
    ((process (happyWorld [{ name := "chicken", quantity := 200 }])
        ("chicken 200g") ("user-1") cachedDb).1.successes.map
      (fun entry => entry.nutrition.calories)) = [165] ∧ (165 : Rat) ≠ 330 := by
  exact ⟨by decide, by decide⟩

/-- Claim C1 (amended): for every item that is successfully written, the
nutrition values in the returned `EntryResult` are the per-basis profile
values of the product copied unchanged — no scaling by quantity happens for
any basis — and the quantity field carries the raw quantity. -/
theorem c1_entry_nutrition_copies_profile
    {w : World} {st : DbState} {idx : Nat} {product : ProductEntity}
    {q : Rat} {u : String} {d : EntryDto} {st2 : DbState}
    (h : insertEntry w st idx product q u = .ok (d, st2)) :
    d.nutrition.calories = product.calories ∧
    d.nutrition.protein = product.protein ∧
    d.nutrition.fat = product.fat ∧
    d.nutrition.carbs = product.carbs ∧
    d.quantity = q := by
  have hfacts := insertEntry_ok h
  rw [hfacts.2.1]
  exact ⟨rfl, rfl, rfl, rfl, hfacts.1⟩

/-- Claim C1 (amended), witness: the amended theorem applied to a concrete
successful insert of 200 units of the cached chicken product. -/
theorem c1_entry_nutrition_copies_profile_witness :
    ({ entryId := 10, productId := 1, name := "chicken", quantity := 200,
       nutrition := { calories := 165, protein := 31, fat := 3.6, carbs := 0 },
       consumedAt := "2025-10-27" } : EntryDto).nutrition.calories =
        chickenProduct.calories ∧
    ({ entryId := 10, productId := 1, name := "chicken", quantity := 200,
       nutrition := { calories := 165, protein := 31, fat := 3.6, carbs := 0 },
       consumedAt := "2025-10-27" } : EntryDto).nutrition.protein =
        chickenProduct.protein ∧
    ({ entryId := 10, productId := 1, name := "chicken", quantity := 200,
       nutrition := { calories := 165, protein := 31, fat := 3.6, carbs := 0 },
       consumedAt := "2025-10-27" } : EntryDto).nutrition.fat =
        chickenProduct.fat ∧
    ({ entryId := 10, productId := 1, name := "chicken", quantity := 200,
       nutrition := { calories := 165, protein := 31, fat := 3.6, carbs := 0 },
       consumedAt := "2025-10-27" } : EntryDto).nutrition.carbs =
        chickenProduct.carbs ∧
    ({ entryId := 10, productId := 1, name := "chicken", quantity := 200,
       nutrition := { calories := 165, protein := 31, fat := 3.6, carbs := 0 },
       consumedAt := "2025-10-27" } : EntryDto).quantity = 200 :=
  c1_entry_nutrition_copies_profile
    (show insertEntry (happyWorld []) cachedDb 0 chickenProduct 200 ("user-1") =
      .ok ({ entryId := 10, productId := 1, name := "chicken", quantity := 200,
             nutrition := { calories := 165, protein := 31, fat := 3.6, carbs := 0 },
             consumedAt := "2025-10-27" },
           { products := [chickenProduct, riceProduct],
             entries := [{ id := 10, user_id := "user-1", product_id := 1,
                           quantity := 200, consumed_at := "2025-10-27" }],
             nextProductId := 3, nextEntryId := 11 }) from rfl)

/-! ## Claim C2 -/

/-- Claim C2, counterexample: parsing succeeds with two items, yet when the
batch product lookup fails the result carries a single whole-text error, so
`successes.length + errors.length = 1 ≠ 2 = number of parsed items`. -/
theorem c2_lookup_failure_breaks_accounting :
    lookupFailWorld.parseOutcome =
      .ok [{ name := "chicken", quantity := 200 }, { name := "rice", quantity := 100 }] ∧
    (process lookupFailWorld ("chicken 200g and rice 100g") ("user-1") cachedDb).1.successes.length +
      (process lookupFailWorld ("chicken 200g and rice 100g") ("user-1") cachedDb).1.errors.length = 1 ∧
    (1 : Nat) ≠ 2 := by
  exact ⟨rfl, by decide, by decide⟩

/-- Claim C2 (amended): when parsing succeeds with at least one item and the
initial batch product lookup also succeeds,
`successes.length + errors.length` equals the number of parsed items; when
parsing succeeds with zero items the result is exactly one synthetic
whole-text error and no successes.  (A failing batch lookup instead yields
one whole-text error regardless of the item count.) -/
theorem c2_item_accounting {w : World} {text u : String} {st : DbState}
    {items : List ParsedMealItem} (hp : w.parseOutcome = .ok items) :
    (items = [] →
      (process w text u st).1 =
        { successes := []
          errors := [{ text := text
                       message := "No recognizable meal items found in the input" }] }) ∧
    (items ≠ [] → w.batchLookupError = none →
      (process w text u st).1.successes.length +
        (process w text u st).1.errors.length = items.length) := by
  constructor
  · intro he
    subst he
    rw [process_parse_empty hp]
  · intro hne hlk
    rw [process_eq_processItems hp hne hlk]
    have h := processItems_length w u items.enum
      ((st.products.filter
          (fun p => (items.map (fun i => normalizeName i.name)).contains p.name)).foldl
        (fun m p => mapSet m (normalizeName p.name) p) [])
      st [] []
    simpa [List.enum_length] using h

/-- Claim C2 (amended), witness: a two-item request against the cached
database accounts for both items. -/
theorem c2_item_accounting_witness :
    (process (happyWorld [{ name := "chicken", quantity := 200 },
                          { name := "rice", quantity := 100 }])
        ("chicken 200g and rice 100g") ("user-1") cachedDb).1.successes.length +
      (process (happyWorld [{ name := "chicken", quantity := 200 },
                            { name := "rice", quantity := 100 }])
          ("chicken 200g and rice 100g") ("user-1") cachedDb).1.errors.length =
      ([{ name := "chicken", quantity := 200 },
         { name := "rice", quantity := 100 }] : List ParsedMealItem).length :=
  (c2_item_accounting rfl).2 (by decide) rfl

/-! ## Claim C3 -/

/-- Claim C3, counterexample: when the product insert violates the unique
constraint because a concurrent request already created the row, the
resolver does not re-read and return the existing row; it throws, and the
item fails. -/
theorem c3_unique_violation_fails_item :
    fetchOrCreateProduct raceWorld emptyDb ("chicken") ("chicken") =
      .error ("Failed to create product: duplicate key value violates unique constraint") :=
  rfl

/-- Claim C3 (amended): when the pre-insert fetch finds no row and the
subsequent insert fails — including a uniqueness violation raised by a
concurrent create — `fetchOrCreateProduct` throws a
`Failed to create product` error (which the orchestrator converts into the
ItemError of that item); there is no re-read of the now-existing row. -/
theorem c3_insert_failure_throws {w : World} {st : DbState} {n o msg : String}
    {nd : NutritionData}
    (hf : w.productFetchError n = none)
    (hm : st.products.find? (fun p => p.name == n) = none)
    (hllm : w.llmNutrition o = .ok nd)
    (hins : w.productInsertError n = some msg) :
    fetchOrCreateProduct w st n o = .error ("Failed to create product: " ++ msg) :=
  fetchOrCreateProduct_insert_error hf hm hllm hins

/-- Claim C3 (amended), witness: the amended theorem applied to the concrete
duplicate-key world. -/
theorem c3_insert_failure_throws_witness :
    fetchOrCreateProduct raceWorld emptyDb ("chicken") ("chicken") =
      .error ("Failed to create product: " ++ "duplicate key value violates unique constraint") :=
  c3_insert_failure_throws rfl rfl rfl rfl

/-! ## Claim C4 -/

/-- Claim C4 (code-bug evidence): the source class defines no constructor
and validates nothing, so construction succeeds for every API key value —
including an absent one — and a missing credential first surfaces during
the completion call, as the upstream 401 mapped to ApiAuthenticationError,
never as a configuration failure at construction. -/
theorem c4_construction_never_validates :
    (∀ k : Option String, OpenRouterService.construct k = .ok { apiKey := k }) ∧
    chatCompletion { apiKey := none } ("Parse this meal") (fun _ => none) none
        (.httpError 401 ("No auth credentials found")) =
      .error (.apiAuth ("API authentication failed: No auth credentials found")) :=
  ⟨fun _ => rfl, rfl⟩

/-! ## Claim C5 -/

/-- Claim C5: when the parser call fails, or yields zero items, `process`
terminates immediately with no successes and exactly one ItemError whose
sourceText is the whole input text, and the database state is returned
untouched — no resolving or writing stage runs. -/
theorem c5_parse_failure_or_empty_terminates {w : World} {text u : String}
    {st : DbState} :
    (∀ msg, w.parseOutcome = .error msg →
      process w text u st =
        ({ successes := []
           errors := [{ text := text
                        message := "Failed to parse meal description: " ++ msg }] }, st)) ∧
    (w.parseOutcome = .ok [] →
      process w text u st =
        ({ successes := []
           errors := [{ text := text
                        message := "No recognizable meal items found in the input" }] }, st)) :=
  ⟨fun _ h => process_parse_error h, fun h => process_parse_empty h⟩

/-- Claim C5, witness: the theorem applied to the concrete failing-parser
world. -/
theorem c5_parse_failure_or_empty_terminates_witness :
    process parseFailWorld ("total gibberish") ("user-1") cachedDb =
      ({ successes := []
         errors := [{ text := "total gibberish"
                      message := "Failed to parse meal description: " ++
                        "LLM meal parsing failed" }] }, cachedDb) :=
  (c5_parse_failure_or_empty_terminates).1 _ rfl

/-! ## Claim C6 -/

/-- Claim C6: an item with quantity 0 or negative yields an ItemError whose
text identifies that item, never appears among the successes, and writes no
entry row (entry rows grow in lockstep with successes only); other items of
the same request are processed independently and can succeed, as the
concrete mixed request shows: chicken 200 succeeds while rice 0 errors and
exactly one entry row is written. -/
theorem c6_nonpositive_quantity_isolated :
    (∀ (w : World) (u : String) (items : List (Nat × ParsedMealItem))
       (ex : List (String × ProductEntity)) (st : DbState) (idx : Nat)
       (item : ParsedMealItem),
      (idx, item) ∈ items → item.quantity ≤ 0 →
      ∃ err, err ∈ (processItems w u items ex st [] []).1.errors ∧
        err.text = itemText item) ∧
    (∀ (w : World) (u : String) (items : List (Nat × ParsedMealItem))
       (ex : List (String × ProductEntity)) (st : DbState),
      ∀ x ∈ (processItems w u items ex st [] []).1.successes, 0 < x.quantity) ∧
    (∀ (w : World) (u : String) (items : List (Nat × ParsedMealItem))
       (ex : List (String × ProductEntity)) (st : DbState),
      (processItems w u items ex st [] []).2.entries.length =
        st.entries.length + (processItems w u items ex st [] []).1.successes.length) ∧
    ((process (happyWorld [{ name := "chicken", quantity := 200 },
                           { name := "rice", quantity := 0 }])
        ("chicken 200g and rice 0g") ("user-1") cachedDb).1.errors =
      [{ text := "rice 0", message := "Quantity must be greater than zero" }] ∧
     (process (happyWorld [{ name := "chicken", quantity := 200 },
                           { name := "rice", quantity := 0 }])
        ("chicken 200g and rice 0g") ("user-1") cachedDb).1.successes.map
          (fun entry => entry.name) = ["chicken"] ∧
     (process (happyWorld [{ name := "chicken", quantity := 200 },
                           { name := "rice", quantity := 0 }])
        ("chicken 200g and rice 0g") ("user-1") cachedDb).2.entries.length = 1) := by
  refine ⟨?_, ?_, ?_, by decide, by decide, by decide⟩
  · intro w u items ex st idx item hmem hq
    exact processItems_error_of_nonpos w u items ex st [] [] idx item hmem hq
  · intro w u items ex st
    exact processItems_successes_pos w u items ex st [] []
      (fun x hx => absurd hx (List.not_mem_nil _))
  · intro w u items ex st
    have h := processItems_entries_length w u items ex st [] []
    simpa using h

/-- Claim C6, witness: the hypotheses of the first conjunct hold at a
concrete one-item request with quantity 0, and the theorem yields its
ItemError, so the error list is nonempty. -/
theorem c6_nonpositive_quantity_isolated_witness :
    ((0, ({ name := "rice", quantity := 0 } : ParsedMealItem)) ∈
        [(0, ({ name := "rice", quantity := 0 } : ParsedMealItem))] ∧
      ({ name := "rice", quantity := 0 } : ParsedMealItem).quantity ≤ 0) ∧
    (processItems (happyWorld [{ name := "rice", quantity := 0 }]) ("user-1")
        [(0, { name := "rice", quantity := 0 })] [] cachedDb [] []).1.errors ≠ [] := by
  refine ⟨⟨List.mem_singleton_self _, by decide⟩, ?_⟩
  obtain ⟨err, hmem, -⟩ :=
    c6_nonpositive_quantity_isolated.1
      (happyWorld [{ name := "rice", quantity := 0 }]) ("user-1")
      [(0, { name := "rice", quantity := 0 })] [] cachedDb 0
      { name := "rice", quantity := 0 } (List.mem_singleton_self _) (by decide)
  intro hnil
  rw [hnil] at hmem
  exact List.not_mem_nil _ hmem

/-! ## Claim C7 -/

/-- Claim C7, counterexample: a request whose only item has quantity 0 and
an unseen name still creates a new Product row (via the fallback LLM
enrichment) before the quantity validation rejects the item — the claimed
validate-before-resolve order does not hold, and a product side effect does
occur for a quantity-invalid item. -/
theorem c7_product_created_despite_invalid_quantity :
    (process (happyWorld [{ name := "dragonfruit", quantity := 0 }])
        ("dragonfruit 0") ("user-1") emptyDb).1 =
      { successes := []
        errors := [{ text := "dragonfruit 0"
                     message := "Quantity must be greater than zero" }] } ∧
    (process (happyWorld [{ name := "dragonfruit", quantity := 0 }])
        ("dragonfruit 0") ("user-1") emptyDb).2.products =
      [{ id := 1, name := "dragonfruit", nutrition_basis := .per100g,
         calories := 100, protein := 5, fat := 2, carbs := 15 }] := by
  exact ⟨by decide, by decide⟩

/-- Claim C7 (amended): in the WRITING stage each item first obtains its
resolved product — running the fallback enrichment and possibly creating a
Product row — and only then validates the quantity; an item with
non-positive quantity therefore keeps the state produced by product
resolution while contributing a quantity ItemError and no entry. -/
theorem c7_resolution_precedes_validation
    {w : World} {u : String} {idx : Nat} {item : ParsedMealItem}
    {rest : List (Nat × ParsedMealItem)} {ex : List (String × ProductEntity)}
    {st st1 : DbState} {p : ProductEntity} {s : List EntryDto} {e : List ErrorDto}
    (hq : item.quantity ≤ 0)
    (hres : resolveProduct w item ex st = .ok (p, st1)) :
    processItems w u ((idx, item) :: rest) ex st s e =
      processItems w u rest ex st1 s
        (e ++ [{ text := itemText item
                 message := "Quantity must be greater than zero" }]) := by
  rw [processItems_cons]
  simp only [processOne, writeItem, hres, if_pos hq]

/-- Claim C7 (amended), witness: the amended theorem applied to the concrete
quantity-0 dragonfruit item resolved against the empty database: the state
passed on to the rest of the loop contains the newly created product row. -/
theorem c7_resolution_precedes_validation_witness :
    processItems (happyWorld [{ name := "dragonfruit", quantity := 0 }]) ("user-1")
        [(0, { name := "dragonfruit", quantity := 0 })] [] emptyDb [] [] =
      processItems (happyWorld [{ name := "dragonfruit", quantity := 0 }]) ("user-1")
        [] []
        { products := [{ id := 1, name := "dragonfruit", nutrition_basis := .per100g,
                         calories := 100, protein := 5, fat := 2, carbs := 15 }]
          entries := [], nextProductId := 2, nextEntryId := 1 }
        []
        ([] ++ [{ text := itemText { name := "dragonfruit", quantity := 0 }
                  message := "Quantity must be greater than zero" }]) :=
  @c7_resolution_precedes_validation
    (happyWorld [{ name := "dragonfruit", quantity := 0 }]) ("user-1") 0
    { name := "dragonfruit", quantity := 0 } [] [] emptyDb
    { products := [{ id := 1, name := "dragonfruit", nutrition_basis := .per100g,
                     calories := 100, protein := 5, fat := 2, carbs := 15 }]
      entries := [], nextProductId := 2, nextEntryId := 1 }
    { id := 1, name := "dragonfruit", nutrition_basis := .per100g,
      calories := 100, protein := 5, fat := 2, carbs := 15 }
    [] [] (by decide) rfl

/-! ## Claim C8 -/

theorem validateMetadata_error_class {r c : JVal} {e : ORError}
    (h : validateMetadata r c = .error e) : ∃ m, e = .responseParsing m := by
  unfold validateMetadata at h
  split at h
  · split at h
    · exact absurd h (by simp)
    · injection h with h1
      exact ⟨_, h1.symm⟩
  · injection h with h1
    exact ⟨_, h1.symm⟩

theorem parseResponse_error_class {pj : String → Option JVal}
    {sc : Option (JVal → Bool)} {body : JVal} {e : ORError}
    (h : parseResponse pj sc body = .error e) : ∃ m, e = .responseParsing m := by
  unfold parseResponse at h
  split at h
  · split at h
    · split at h
      · injection h with h1
        exact ⟨_, h1.symm⟩
      · split at h
        · split at h
          · exact validateMetadata_error_class h
          · injection h with h1
            exact ⟨_, h1.symm⟩
        · exact validateMetadata_error_class h
    · injection h with h1
      exact ⟨_, h1.symm⟩
  · injection h with h1
    exact ⟨_, h1.symm⟩

/-- A fixed service instance for the closed OpenRouter statements. -/
def svcFixture : OpenRouterService := { apiKey := some ("test-key") }

/-- Claim C8, counterexample: an HTTP 501 response — a 5xx-class failure —
is thrown by the default branch of the error handler as the base ApiError
class, which is none of the seven failure classes the claim enumerates (in
particular it is not the upstream-server class). -/
theorem c8_status_501_generic_apierror :
    chatCompletion svcFixture ("hi") (fun _ => none) none
        (.httpError 501 ("Not Implemented")) =
      .error (.apiOther ("API request failed (501): Not Implemented") 501) ∧
    claimedFailureTaxonomy (.apiOther ("API request failed (501): Not Implemented") 501) =
      false ∧
    500 ≤ 501 ∧ 501 < 600 :=
  ⟨rfl, rfl, by decide, by decide⟩

/-- Claim C8 (amended): every failure of the completion call is reported as
exactly one of configuration, authentication (HTTP 401), bad request (400),
rate limit (429), upstream server (statuses 500, 502, 503, 504 only), a
generic API failure carrying the status code (any other non-OK status, e.g.
403, 404, 501), network/timeout, or parse failure; and an OK response
lacking the expected wire shape, with non-JSON content, or with content
failing the output schema is rejected as a parse failure
(`ResponseParsingError`). -/
theorem c8_failure_classification (svc : OpenRouterService) (um : String)
    (pj : String → Option JVal) (sc : Option (JVal → Bool)) (m : String)
    (status : Nat) (body : JVal) (hum : um ≠ "") :
    (chatCompletion svc um pj sc (.netError m) =
      .error (.network ("Network error occurred while contacting OpenRouter API"))) ∧
    (chatCompletion svc um pj sc .timeout =
      .error (.network ("Request timeout after " ++ toString svc.requestTimeout ++ "ms"))) ∧
    (chatCompletion svc um pj sc (.httpError 401 m) =
      .error (.apiAuth ("API authentication failed: " ++ m))) ∧
    (chatCompletion svc um pj sc (.httpError 400 m) =
      .error (.apiBadRequest ("Bad request: " ++ m))) ∧
    (chatCompletion svc um pj sc (.httpError 429 m) =
      .error (.apiRateLimit ("Rate limited: " ++ m))) ∧
    (status = 500 ∨ status = 502 ∨ status = 503 ∨ status = 504 →
      chatCompletion svc um pj sc (.httpError status m) =
        .error (.apiServer
          ("OpenRouter API server error (" ++ toString status ++ "): " ++ m) status)) ∧
    (status ≠ 401 → status ≠ 400 → status ≠ 429 →
      ¬(status = 500 ∨ status = 502 ∨ status = 503 ∨ status = 504) →
      chatCompletion svc um pj sc (.httpError status m) =
        .error (.apiOther ("API request failed (" ++ toString status ++ "): " ++ m) status)) ∧
    (chatCompletion svc um pj sc .okBadJson =
      .error (.network ("Unexpected error during API request"))) ∧
    (chatCompletion svc um pj sc (.ok body) = parseResponse pj sc body) ∧
    (∀ e, parseResponse pj sc body = .error e → ∃ pm, e = .responseParsing pm) ∧
    (body.getField ("choices") = none →
      parseResponse pj sc body =
        .error (.responseParsing ("Invalid response structure from OpenRouter API"))) ∧
    (∀ choice rest content,
      body.getField ("choices") = some (.jarr (choice :: rest)) →
      (choice.getField ("message")).bind (fun mm => mm.getField ("content")) =
        some (.jstr content) →
      pj content = none →
      parseResponse pj sc body =
        .error (.responseParsing ("Failed to parse response content as JSON"))) ∧
    (∀ choice rest content contentVal check,
      body.getField ("choices") = some (.jarr (choice :: rest)) →
      (choice.getField ("message")).bind (fun mm => mm.getField ("content")) =
        some (.jstr content) →
      pj content = some contentVal →
      sc = some check → check contentVal = false →
      parseResponse pj sc body =
        .error (.responseParsing ("Response content does not match the provided schema"))) := by
  refine ⟨?_, ?_, ?_, ?_, ?_, ?_, ?_, ?_, ?_, ?_, ?_, ?_, ?_⟩
  · simp [chatCompletion, hum]
  · simp [chatCompletion, hum]
  · simp [chatCompletion, hum, handleErrorResponse]
  · simp [chatCompletion, hum, handleErrorResponse]
  · simp [chatCompletion, hum, handleErrorResponse]
  · intro h5
    have h401 : status ≠ 401 := by rcases h5 with h | h | h | h <;> omega
    have h400 : status ≠ 400 := by rcases h5 with h | h | h | h <;> omega
    have h429 : status ≠ 429 := by rcases h5 with h | h | h | h <;> omega
    simp [chatCompletion, hum, handleErrorResponse, h401, h400, h429, h5]
  · intro h401 h400 h429 h5
    simp [chatCompletion, hum, handleErrorResponse, h401, h400, h429, h5]
  · simp [chatCompletion, hum]
  · simp [chatCompletion, hum]
  · intro e he
    exact parseResponse_error_class he
  · intro hch
    simp [parseResponse, hch]
  · intro choice rest content hch hct hpj
    simp [parseResponse, hch, hct, hpj]
  · intro choice rest content contentVal check hch hct hpj hsc hck
    simp [parseResponse, hch, hct, hpj, hsc, hck]

/-- Claim C8 (amended), witness: the classification applied to a concrete
403 response, landing in the generic API failure class. -/
theorem c8_failure_classification_witness :
    chatCompletion svcFixture ("hi") (fun _ => none) none
        (.httpError 403 ("Forbidden")) =
      .error (.apiOther ("API request failed (" ++ toString 403 ++ "): " ++ "Forbidden") 403) :=
  ((c8_failure_classification svcFixture ("hi") (fun _ => none) none ("Forbidden")
      403 .jnull (by decide)).2.2.2.2.2.2.1)
    (by decide) (by decide) (by decide) (by decide)

/-! ## Claim C9 -/

theorem process_errors_msg_pos (w : World) (text u : String) (st : DbState) :
    ∀ err ∈ (process w text u st).1.errors, 0 < err.message.length := by
  intro err hmem
  rcases hpo : w.parseOutcome with msg | items
  · rw [process_parse_error hpo] at hmem
    have heq : err = { text := text
                       message := "Failed to parse meal description: " ++ msg } :=
      List.mem_singleton.mp hmem
    subst heq
    show 0 < ("Failed to parse meal description: " ++ msg).length
    have hlen := String.length_append ("Failed to parse meal description: ") msg
    have hpre : 0 < ("Failed to parse meal description: ").length := by decide
    omega
  · by_cases hitems : items = []
    · subst hitems
      rw [process_parse_empty hpo] at hmem
      have heq : err = { text := text
                         message := "No recognizable meal items found in the input" } :=
        List.mem_singleton.mp hmem
      subst heq
      show 0 < ("No recognizable meal items found in the input").length
      decide
    · rcases hlk : w.batchLookupError with _ | msg
      · rw [process_eq_processItems hpo hitems hlk] at hmem
        exact processItems_errors_msg_pos w u _ _ _ _ _
          (fun x hx => absurd hx (List.not_mem_nil _)) err hmem
      · rw [process_lookup_error hpo hitems hlk] at hmem
        have heq : err = { text := text
                           message := "Failed to lookup products: " ++
                             ("Database error: " ++ msg) } :=
          List.mem_singleton.mp hmem
        subst heq
        show 0 < ("Failed to lookup products: " ++ ("Database error: " ++ msg)).length
        have hlen := String.length_append ("Failed to lookup products: ")
          ("Database error: " ++ msg)
        have hpre : 0 < ("Failed to lookup products: ").length := by decide
        omega

/-- Claim C9: the orchestrator never lets per-item work escape: for every
world — that is, whatever the oracles for resolution, enrichment and the
entry insert return, including arbitrary unexpected failure messages — each
loop iteration hands exactly one outcome (a success or an ItemError) to the
accumulators and continues with the remaining items, and every error in a
returned `ProcessResult` carries a nonempty message. -/
theorem c9_orchestrator_isolates_item_failures :
    (∀ (w : World) (u : String) (idx : Nat) (item : ParsedMealItem)
       (rest : List (Nat × ParsedMealItem)) (ex : List (String × ProductEntity))
       (st : DbState) (s : List EntryDto) (e : List ErrorDto),
      ∃ st1 s1 e1,
        processItems w u ((idx, item) :: rest) ex st s e =
          processItems w u rest ex st1 s1 e1 ∧
        s1.length + e1.length = s.length + e.length + 1) ∧
    (∀ (w : World) (text u : String) (st : DbState),
      ∀ err ∈ (process w text u st).1.errors, 0 < err.message.length) := by
  constructor
  · intro w u idx item rest ex st s e
    rcases hone : processOne w u idx item ex st with ⟨r, st1⟩
    rcases r with err | entry
    · refine ⟨st1, s, e ++ [err], ?_, by simp only [List.length_append,
        List.length_cons, List.length_nil]; omega⟩
      rw [processItems_cons, hone]
    · refine ⟨st1, s ++ [entry], e, ?_, by simp only [List.length_append,
        List.length_cons, List.length_nil]; omega⟩
      rw [processItems_cons, hone]
  · exact process_errors_msg_pos

/-- Claim C9, witness: the first conjunct applied to a concrete item, and
the second applied to the concrete error produced by a failing parse. -/
theorem c9_orchestrator_isolates_item_failures_witness :
    ({ text := "total gibberish"
       message := "Failed to parse meal description: " ++ "LLM meal parsing failed" } : ErrorDto) ∈
      (process parseFailWorld ("total gibberish") ("user-1") cachedDb).1.errors ∧
    0 < ({ text := "total gibberish"
           message := "Failed to parse meal description: " ++
             "LLM meal parsing failed" } : ErrorDto).message.length := by
  have hmem : ({ text := "total gibberish"
                 message := "Failed to parse meal description: " ++
                   "LLM meal parsing failed" } : ErrorDto) ∈
      (process parseFailWorld ("total gibberish") ("user-1") cachedDb).1.errors := by
    decide
  exact ⟨hmem,
    c9_orchestrator_isolates_item_failures.2 parseFailWorld ("total gibberish")
      ("user-1") cachedDb _ hmem⟩

/-! ## Claim C10 -/

/-- Claim C10: the deployed mock client never fails: the nutrition oracle of
the mock configuration always returns ok, a product name whose mock
normalization is absent from the built-in database gets the fixed default
profile (basis 100g, calories 100, protein 5, fat 2, carbs 15), and
resolving such an unknown food through `fetchOrCreateProduct` silently
creates a cached product carrying exactly that placeholder profile instead
of producing a resolver-stage ItemError. -/
theorem c10_mock_nutrition_default :
    (∀ name : String, LLMClient.mockLlmNutrition name =
      .ok (LLMClient.fetchNutritionData name)) ∧
    (∀ name : String,
      LLMClient.mockNutritionDb.find?
        (fun kv => kv.1 == LLMClient.mockNormalize name) = none →
      LLMClient.fetchNutritionData name = LLMClient.defaultNutrition) ∧
    (∀ (w : World) (st : DbState) (n o : String),
      w.llmNutrition = LLMClient.mockLlmNutrition →
      w.productFetchError n = none →
      st.products.find? (fun p => p.name == n) = none →
      w.productInsertError n = none →
      LLMClient.mockNutritionDb.find?
        (fun kv => kv.1 == LLMClient.mockNormalize o) = none →
      fetchOrCreateProduct w st n o =
        .ok (ProductEntity.mk st.nextProductId n .per100g 100 5 2 15,
             { st with
                products := st.products ++
                  [ProductEntity.mk st.nextProductId n .per100g 100 5 2 15]
                nextProductId := st.nextProductId + 1 })) := by
  refine ⟨fun _ => rfl, ?_, ?_⟩
  · intro name h
    unfold LLMClient.fetchNutritionData
    rw [h]
  · intro w st n o hw hf hm hins hdb
    have hdef : LLMClient.fetchNutritionData o = LLMClient.defaultNutrition := by
      unfold LLMClient.fetchNutritionData
      rw [hdb]
    have hllm : w.llmNutrition o = .ok LLMClient.defaultNutrition := by
      rw [hw]
      unfold LLMClient.mockLlmNutrition
      rw [hdef]
    have h := fetchOrCreateProduct_miss_ok hf hm hllm hins
    simpa [LLMClient.defaultNutrition] using h

/-- Claim C10, witness: resolving the unknown food dragonfruit against the
empty database creates a cached product with the placeholder profile and no
error. -/
theorem c10_mock_nutrition_default_witness :
    fetchOrCreateProduct (happyWorld []) emptyDb ("dragonfruit") ("dragonfruit") =
      .ok (ProductEntity.mk emptyDb.nextProductId ("dragonfruit") .per100g 100 5 2 15,
           { emptyDb with
              products := emptyDb.products ++
                [ProductEntity.mk emptyDb.nextProductId ("dragonfruit") .per100g 100 5 2 15]
              nextProductId := emptyDb.nextProductId + 1 }) :=
  c10_mock_nutrition_default.2.2 (happyWorld []) emptyDb ("dragonfruit")
    ("dragonfruit") rfl rfl rfl rfl rfl

end CaloriesTracker
